import Mathlib

/-!
Shallow embedding of the idempotent DynamoDB balance-transfer ledger
(`src/types.ts`, `src/user/user.ts`, `src/transact/transact.ts`).

Amounts travel as decimal strings and are interpreted as rationals; the two
DynamoDB tables (`Users` keyed by `userId`, `Transactions` keyed by
`idempotencyKey`) are modelled as association lists inside `DBState`.  The
store's `TransactWriteItemsCommand` is given its DynamoDB semantics for the
exact two items `TransactService.transact` builds: all-or-nothing commit, a
per-item cancellation reason list on rejection, and the conflicting old item
reported for a failed conditional `Put` (the shape the code's conflict
resolution consumes and the tests stub).
-/

/-- The `TransactionType` enum of `src/types.ts`: `CREDIT | DEBIT`. -/
inductive TransactionType where
  | CREDIT
  | DEBIT
deriving DecidableEq

/-- The `TransactionInput` interface of `src/types.ts`.  `type` is an
`Option` because the TypeScript tests construct inputs with the field
absent (`undefined`), which `validate` treats as falsy. -/
structure TransactionInput where
  idempotentKey : String
  userId : String
  amount : String
  type : Option TransactionType
deriving DecidableEq

/-- The error classes of `src/types.ts` as a tagged enum.
`TransactionFailedError` models the generic `new Error("Transaction failed: " + message)`
thrown by `TransactService.transact`; `StoreError` models a non-cancellation
store error rethrown unchanged. -/
inductive DomainError where
  | InvalidUserIdError
  | UserNotFoundError (userId : String)
  | InvalidIdempotencyKeyError
  | InvalidAmountError
  | InvalidTransactionTypeError
  | InsufficientBalanceError
  | TransactionFailedError (message : String)
  | StoreError (message : String)
deriving DecidableEq

deriving instance DecidableEq for Except

/-- Kernel-computable rational addition; provably equal to `+` on `ℚ`
(`qAdd_eq`), used so that concrete runs of the model evaluate by `decide`. -/
def qAdd (a b : ℚ) : ℚ := mkRat (a.num * b.den + b.num * a.den) (a.den * b.den)

/-- Kernel-computable rational subtraction; provably equal to `-` on `ℚ`
(`qSub_eq`). -/
def qSub (a b : ℚ) : ℚ := mkRat (a.num * b.den - b.num * a.den) (a.den * b.den)

@[simp]
theorem qAdd_eq (a b : ℚ) : qAdd a b = a + b := (Rat.add_def' a b).symm

@[simp]
theorem qSub_eq (a b : ℚ) : qSub a b = a - b := (Rat.sub_def' a b).symm

/-- Value of a list of decimal digit characters read in base ten. -/
def natFromDigits (cs : List Char) : Nat :=
  cs.foldl (fun a c => a * 10 + (c.toNat - 48)) 0

/-- Every character is a decimal digit. -/
def allDigits (cs : List Char) : Bool :=
  cs.all Char.isDigit

/-- Splits a character list at the `'.'` separators (the list analogue of
`String.splitOn "."`). -/
def splitDot (cs : List Char) (acc : List Char) : List (List Char) :=
  match cs with
  | [] => [acc.reverse]
  | c :: t => if c = '.' then acc.reverse :: splitDot t [] else splitDot t (c :: acc)

/-- Drops leading whitespace characters. -/
def dropSpaces (cs : List Char) : List Char :=
  match cs with
  | [] => []
  | c :: t => if c.isWhitespace then dropSpaces t else c :: t

/-- Whitespace trim on both ends (the list analogue of `String.trim`). -/
def trimChars (cs : List Char) : List Char :=
  (dropSpaces (dropSpaces cs).reverse).reverse

/-- Unsigned decimal literal: "123", "123.45", ".5" or "5.".  Anything else
(no digits, two dots, non-digit characters) is rejected.  The value
`i + f / 10^|f|` is built as a single `mkRat`. -/
def parseUnsignedDecimal (cs : List Char) : Option ℚ :=
  match splitDot cs [] with
  | [w] =>
      if w ≠ [] ∧ allDigits w then some (natFromDigits w : ℚ) else none
  | [i, f] =>
      if (i ≠ [] ∨ f ≠ []) ∧ allDigits i ∧ allDigits f then
        some (mkRat (natFromDigits i * 10 ^ f.length + natFromDigits f) (10 ^ f.length))
      else none
  | _ => none

/-- Model of JavaScript `Number(string)` on the decimal-string domain the
system uses for amounts: leading/trailing whitespace is ignored, the empty
string is `0`, an optional sign precedes an unsigned decimal literal, and
anything else is `NaN` (`none`).  Exotic `Number` forms (hex, exponent,
`Infinity`) lie outside the DynamoDB number domain and are not modelled. -/
def jsNumber (s : String) : Option ℚ :=
  match trimChars s.toList with
  | [] => some 0
  | '-' :: t => (parseUnsignedDecimal t).map (fun q => -q)
  | '+' :: t => parseUnsignedDecimal t
  | t => parseUnsignedDecimal t

/-- A `Users`-table item: the optional attributes beside the key. -/
structure UserItem where
  balance : Option ℚ
  currency : Option String
deriving DecidableEq

/-- A `Transactions`-table item, exactly the attributes
`TransactService.transact` puts: the key, `userId`, `amount`, `type` and the
transactor-assigned `timestamp`. -/
structure TransactionItem where
  idempotencyKey : String
  userId : String
  amount : ℚ
  type : Option TransactionType
  timestamp : Nat
deriving DecidableEq

/-- The two DynamoDB tables as association lists keyed by `userId`
resp. `idempotencyKey`. -/
structure DBState where
  users : List (String × UserItem)
  transactions : List (String × TransactionItem)
deriving DecidableEq

/-- Point read of a keyed table. -/
def dbGet {α : Type} (l : List (String × α)) (k : String) : Option α :=
  match l with
  | [] => none
  | (k', v) :: t => if k = k' then some v else dbGet t k

/-- Keyed upsert: replace the entry under `k` if present, else append it. -/
def updList {α : Type} (l : List (String × α)) (k : String) (v : α) : List (String × α) :=
  match l with
  | [] => [(k, v)]
  | (k', v') :: t => if k' = k then (k, v) :: t else (k', v') :: updList t k v

/-- Number of entries a table holds under a key. -/
def keyCount {α : Type} (l : List (String × α)) (k : String) : Nat :=
  (l.filter (fun p => p.1 = k)).length

/-- The `balance` attribute of a user, when the user item exists and carries
one (`attribute_exists(#balance)` territory). -/
def userBalance (s : DBState) (userId : String) : Option ℚ :=
  (dbGet s.users userId).bind UserItem.balance

/-- DynamoDB per-item cancellation code: `"None"` or `"ConditionalCheckFailed"`. -/
inductive CancellationCode where
  | None
  | ConditionalCheckFailed
deriving DecidableEq

/-- One entry of `TransactionCanceledException.CancellationReasons`.
`ItemIdempotencyKey` models the projection `reason.Item?.idempotencyKey?.S`
the code reads from the reported conflicting item (absent for the balance
update, whose user item carries no such attribute). -/
structure CancellationReason where
  Code : CancellationCode
  ItemIdempotencyKey : Option String
deriving DecidableEq

/-- Store-level failures of the atomic write: `TransactionCanceledException`
with its reasons and message, or any other error (rethrown unchanged by the
code). -/
inductive DbError where
  | TransactionCanceledException (CancellationReasons : List CancellationReason) (message : String)
  | OtherError (message : String)
deriving DecidableEq

/-- Guard of the debit balance update (first transact item):
`attribute_exists(#balance) AND #balance >= :amount`. -/
def debitGuard (s : DBState) (userId : String) (amount : ℚ) : Bool :=
  match userBalance s userId with
  | some b => decide (amount ≤ b)
  | none => false

/-- Guard of the first transact item: a credit update is unconditional, a
debit update carries `debitGuard`. -/
def op1Guard (s : DBState) (input : TransactionInput) (amount : ℚ) : Bool :=
  if input.type = some TransactionType.CREDIT then true
  else debitGuard s input.userId amount

/-- Guard of the second transact item (ledger insert):
`attribute_not_exists(idempotencyKey)`. -/
def op2Guard (s : DBState) (input : TransactionInput) : Bool :=
  (dbGet s.transactions input.idempotentKey).isNone

/-- The state produced when both guards pass: the user's balance is set to
`if_not_exists(#balance, 0) + :amount` (credit) or `#balance - :amount`
(debit), and the ledger record is inserted under the idempotency key with
the transactor-assigned timestamp `now`. -/
def writeSuccessState (s : DBState) (input : TransactionInput) (amount : ℚ) (now : Nat) : DBState :=
  { users := updList s.users input.userId
      { (dbGet s.users input.userId).getD { balance := none, currency := none } with
        balance := some (if input.type = some TransactionType.CREDIT
          then qAdd ((userBalance s input.userId).getD 0) amount
          else qSub ((userBalance s input.userId).getD 0) amount) },
    transactions := updList s.transactions input.idempotentKey
      { idempotencyKey := input.idempotentKey, userId := input.userId,
        amount := amount, type := input.type, timestamp := now } }

/-- The per-item cancellation reasons DynamoDB reports when the atomic write
is rejected: one entry per item in order, `ConditionalCheckFailed` exactly
for the items whose guard failed, and for a failed ledger insert the
conflicting old item (whose stored `idempotencyKey` the code projects). -/
def cancelReasons (s : DBState) (input : TransactionInput) (amount : ℚ) : List CancellationReason :=
  [ { Code := if op1Guard s input amount then CancellationCode.None
        else CancellationCode.ConditionalCheckFailed,
      ItemIdempotencyKey := none },
    { Code := if op2Guard s input then CancellationCode.None
        else CancellationCode.ConditionalCheckFailed,
      ItemIdempotencyKey := (dbGet s.transactions input.idempotentKey).map
        TransactionItem.idempotencyKey } ]

/-- DynamoDB semantics of the `TransactWriteItemsCommand` built by
`TransactService.transact`: both items commit together when every guard
passes, otherwise nothing changes and a `TransactionCanceledException`
carries the per-item reasons.  A non-numeric amount string is a store-side
validation error (unreachable after `validate`). -/
def dynamoTransactWrite (s : DBState) (input : TransactionInput) (now : Nat) : Except DbError DBState :=
  match jsNumber input.amount with
  | none => .error (.OtherError "ValidationException")
  | some amount =>
      if op1Guard s input amount && op2Guard s input then
        .ok (writeSuccessState s input amount now)
      else
        .error (.TransactionCanceledException (cancelReasons s input amount) "Transaction cancelled")

/-- `TransactService.checkExistingTransaction`: point read of the
`Transactions` table by `idempotencyKey`, no side effects. -/
def TransactService.checkExistingTransaction (s : DBState) (idempotencyKey : String) : Option TransactionItem :=
  dbGet s.transactions idempotencyKey

/-- The amount test of `TransactService.validate`:
`!input.amount || isNaN(Number(input.amount)) || Number(input.amount) <= 0`. -/
def isInvalidAmount (a : String) : Bool :=
  a == "" || (jsNumber a).isNone || decide ((jsNumber a).getD 0 ≤ 0)

/-- `TransactService.validate`: pure fail-fast input validation, checks in
source order — empty `userId`, empty `idempotentKey`, bad `amount`, missing
`type` — and throws the corresponding error class. -/
def TransactService.validate (input : TransactionInput) : Except DomainError Unit :=
  if input.userId = "" then .error (.UserNotFoundError input.userId)
  else if input.idempotentKey = "" then .error .InvalidIdempotencyKeyError
  else if isInvalidAmount input.amount then .error .InvalidAmountError
  else if input.type = none then .error .InvalidTransactionTypeError
  else .ok ()

/-- The catch block of `TransactService.transact`, as a function of the
store failure and of the value `checkExistingTransaction` returns when the
code performs the post-conflict re-read: a `ConditionalCheckFailed` on the
first item of a non-credit request becomes `InsufficientBalanceError`; else
a failed reason reporting a conflicting item whose `idempotencyKey` equals
the request's key triggers the re-read (found record → silent success,
nothing found → generic `Transaction failed: <message>` error); any other
cancellation is the same generic error; a non-cancellation store error is
rethrown unchanged. -/
def TransactService.handleWriteError (input : TransactionInput) (e : DbError)
    (recheck : Option TransactionItem) : Except DomainError Unit :=
  match e with
  | .TransactionCanceledException reasons message =>
      if ¬ (input.type = some TransactionType.CREDIT)
          ∧ reasons.head?.map CancellationReason.Code
              = some CancellationCode.ConditionalCheckFailed then
        .error .InsufficientBalanceError
      else if ∃ r ∈ reasons, r.Code = CancellationCode.ConditionalCheckFailed
          ∧ r.ItemIdempotencyKey = some input.idempotentKey then
        match recheck with
        | some _ => .ok ()
        | none => .error (.TransactionFailedError ("Transaction failed: " ++ message))
      else .error (.TransactionFailedError ("Transaction failed: " ++ message))
  | .OtherError message => .error (.StoreError message)

/-- `TransactService.transact`: the atomic two-item write followed by the
conflict-resolution catch block.  The post-conflict re-read runs against the
unchanged state, since a cancelled transactional write mutates nothing. -/
def TransactService.transact (s : DBState) (input : TransactionInput) (now : Nat) : Except DomainError DBState :=
  match dynamoTransactWrite s input now with
  | .ok s' => .ok s'
  | .error e =>
      match TransactService.handleWriteError input e
          (TransactService.checkExistingTransaction s input.idempotentKey) with
      | .ok _ => .ok s
      | .error err => .error err

/-- `createTransactFn`: the orchestrated operation — validate, user
existence check via `UserService.getUserItem`, idempotency pre-check, then
the atomic transact. -/
def createTransactFn (s : DBState) (input : TransactionInput) (now : Nat) : Except DomainError DBState :=
  match TransactService.validate input with
  | .error e => .error e
  | .ok _ =>
      match dbGet s.users input.userId with
      | none => .error (.UserNotFoundError input.userId)
      | some _ =>
          match TransactService.checkExistingTransaction s input.idempotentKey with
          | some _ => .ok s
          | none => TransactService.transact s input now

/-- Observable run of `TransactService.transact`: the store state after the
call (unchanged on failure, by the store's all-or-nothing guarantee) and the
error if one was thrown. -/
def runTransact (s : DBState) (input : TransactionInput) (now : Nat) : DBState × Option DomainError :=
  match TransactService.transact s input now with
  | .ok s' => (s', none)
  | .error e => (s, some e)

/-- Observable run of the orchestrated `createTransactFn`. -/
def runTransactFn (s : DBState) (input : TransactionInput) (now : Nat) : DBState × Option DomainError :=
  match createTransactFn s input now with
  | .ok s' => (s', none)
  | .error e => (s, some e)

/-- The process-wide defaults of `src/config.ts` consumed by `UserService`. -/
structure TConfig where
  DEFAULT_BALANCE : ℚ
  DEFAULT_CURRENCY : String
deriving DecidableEq

/-- `UserService.getUserItem`: point read of the `Users` table. -/
def UserService.getUserItem (s : DBState) (userId : String) : Option UserItem :=
  dbGet s.users userId

/-- `UserService.getUserBalance`: read-only balance lookup returning the
(amount, currency) pair the TypeScript formats as `"<amount> <currency>"`.
Empty `userId` → `InvalidUserIdError`; absent user → `UserNotFoundError`;
user without `balance` → the process-wide defaults, no write; `balance`
present with absent (or empty, via `||`) `currency` → stored balance with
the default currency. -/
def UserService.getUserBalance (s : DBState) (cfg : TConfig) (userId : String) : Except DomainError (ℚ × String) :=
  if userId = "" then .error .InvalidUserIdError
  else
    match UserService.getUserItem s userId with
    | some item =>
        match item.balance with
        | none => .ok (cfg.DEFAULT_BALANCE, cfg.DEFAULT_CURRENCY)
        | some b =>
            .ok (b, match item.currency with
                    | some c => if c = "" then cfg.DEFAULT_CURRENCY else c
                    | none => cfg.DEFAULT_CURRENCY)
    | none => .error (.UserNotFoundError userId)

/-- A user item whose `balance`, when present, is nonnegative. -/
def UserItem.nonNeg (u : UserItem) : Prop :=
  0 ≤ u.balance.getD 0

instance (u : UserItem) : Decidable u.nonNeg := by
  unfold UserItem.nonNeg
  exact inferInstance

/-- Every stored balance in the `Users` table is nonnegative. -/
def nonNegBalances (s : DBState) : Prop :=
  ∀ p ∈ s.users, UserItem.nonNeg p.2

instance (s : DBState) : Decidable (nonNegBalances s) := by
  unfold nonNegBalances
  exact inferInstance

/-! ### Association-list lemmas -/

theorem dbGet_updList {α : Type} (l : List (String × α)) (k k' : String) (v : α) :
    dbGet (updList l k v) k' = if k' = k then some v else dbGet l k' := by
  induction l with
  | nil => simp [updList, dbGet]
  | cons hd t ih =>
      obtain ⟨k₁, v₁⟩ := hd
      by_cases h1 : k₁ = k
      · subst h1
        by_cases h2 : k' = k₁ <;> simp [updList, dbGet, h2]
      · by_cases h2 : k' = k₁ <;> by_cases h3 : k' = k <;>
          simp_all [updList, dbGet, ih]

theorem mem_updList {α : Type} {l : List (String × α)} {k : String} {v : α}
    {p : String × α} (hp : p ∈ updList l k v) : p = (k, v) ∨ p ∈ l := by
  induction l with
  | nil => simpa [updList] using hp
  | cons hd t ih =>
      obtain ⟨k₁, v₁⟩ := hd
      by_cases h1 : k₁ = k
      · subst h1
        simp only [updList, if_pos rfl, if_true, eq_self_iff_true, List.mem_cons] at hp
        exact hp.imp id (List.mem_cons_of_mem _)
      · simp only [updList, if_neg h1, List.mem_cons] at hp
        rcases hp with h | h
        · exact Or.inr (by simp [h])
        · rcases ih h with h' | h'
          · exact Or.inl h'
          · exact Or.inr (List.mem_cons_of_mem _ h')

theorem dbGet_mem {α : Type} {l : List (String × α)} {k : String} {v : α}
    (h : dbGet l k = some v) : (k, v) ∈ l := by
  induction l with
  | nil => simp [dbGet] at h
  | cons hd t ih =>
      obtain ⟨k₁, v₁⟩ := hd
      by_cases h1 : k = k₁
      · subst h1
        simp [dbGet] at h
        simp [h]
      · simp only [dbGet, if_neg h1] at h
        exact List.mem_cons_of_mem _ (ih h)

theorem keyCount_updList_of_none {α : Type} {l : List (String × α)} {k : String}
    (v : α) (h : dbGet l k = none) : keyCount (updList l k v) k = 1 := by
  induction l with
  | nil => simp [updList, keyCount]
  | cons hd t ih =>
      obtain ⟨k₁, v₁⟩ := hd
      by_cases h1 : k = k₁
      · simp [dbGet, h1] at h
      · simp only [dbGet, if_neg h1] at h
        have h2 : ¬ (k₁ = k) := fun hh => h1 hh.symm
        simp only [updList, if_neg h2, keyCount, List.filter]
        simpa [keyCount, h2] using ih h

/-! ### Amount-validation lemmas -/

theorem isInvalidAmount_iff (a : String) :
    isInvalidAmount a = true ↔
      a = "" ∨ jsNumber a = none ∨ ∃ q, jsNumber a = some q ∧ q ≤ 0 := by
  unfold isInvalidAmount
  cases h : jsNumber a with
  | none => simp [h]
  | some q => simp [h]

theorem validate_ok_facts {input : TransactionInput}
    (h : TransactService.validate input = .ok ()) :
    input.userId ≠ "" ∧ input.idempotentKey ≠ "" ∧
      (∀ q, jsNumber input.amount = some q → 0 < q) ∧
      jsNumber input.amount ≠ none ∧ input.type ≠ none := by
  unfold TransactService.validate at h
  split_ifs at h with h1 h2 h3 h4
  refine ⟨h1, h2, ?_, ?_, h4⟩
  · intro q hq
    by_contra hle
    exact h3 ((isInvalidAmount_iff _).mpr (Or.inr (Or.inr ⟨q, hq, le_of_not_lt hle⟩)))
  · intro hn
    exact h3 ((isInvalidAmount_iff _).mpr (Or.inr (Or.inl hn)))

theorem isInvalidAmount_false {a : String} (h1 : a ≠ "")
    (h2 : ∃ q, jsNumber a = some q ∧ 0 < q) : isInvalidAmount a = false := by
  rcases h2 with ⟨q, hq, hpos⟩
  rw [Bool.eq_false_iff]
  intro hcon
  rcases (isInvalidAmount_iff a).mp hcon with h | h | ⟨q', hq', hle⟩
  · exact h1 h
  · rw [h] at hq; cases hq
  · rw [hq] at hq'
    obtain rfl := Option.some.inj hq'
    exact absurd hpos (not_lt.mpr hle)

/-! ### Claim theorems -/

/-- C6: `TransactService.validate` is a pure function of the request (no
I/O, by its very type) that fails fast in fixed order with the first
violation winning: empty `userId` → `UserNotFoundError` (a
UserNotFound-class error); then empty `idempotentKey` →
`InvalidIdempotencyKeyError`; then an amount that is empty, non-numeric or
`≤ 0` → `InvalidAmountError`; then a `type` that is not one of
CREDIT/DEBIT (i.e. absent, the only other value in the TypeScript value
space) → `InvalidTransactionTypeError`; a request violating none of these
passes. -/
theorem validate_fixed_order (input : TransactionInput) :
    (input.userId = "" →
      TransactService.validate input = .error (.UserNotFoundError input.userId))
    ∧ (input.userId ≠ "" → input.idempotentKey = "" →
      TransactService.validate input = .error .InvalidIdempotencyKeyError)
    ∧ (input.userId ≠ "" → input.idempotentKey ≠ "" →
      (input.amount = "" ∨ jsNumber input.amount = none ∨
        ∃ q, jsNumber input.amount = some q ∧ q ≤ 0) →
      TransactService.validate input = .error .InvalidAmountError)
    ∧ (input.userId ≠ "" → input.idempotentKey ≠ "" →
      input.amount ≠ "" → (∃ q, jsNumber input.amount = some q ∧ 0 < q) →
      input.type = none →
      TransactService.validate input = .error .InvalidTransactionTypeError)
    ∧ (∀ t, input.userId ≠ "" → input.idempotentKey ≠ "" →
      input.amount ≠ "" → (∃ q, jsNumber input.amount = some q ∧ 0 < q) →
      input.type = some t →
      TransactService.validate input = .ok ()) := by
  refine ⟨?_, ?_, ?_, ?_, ?_⟩
  · intro h
    simp [TransactService.validate, h]
  · intro h1 h2
    simp [TransactService.validate, h1, h2]
  · intro h1 h2 h3
    have hbad : isInvalidAmount input.amount = true := (isInvalidAmount_iff _).mpr h3
    simp [TransactService.validate, h1, h2, hbad]
  · intro h1 h2 h3 h4 h5
    have hok : isInvalidAmount input.amount = false := isInvalidAmount_false h3 h4
    simp [TransactService.validate, h1, h2, hok, h5]
  · intro t h1 h2 h3 h4 h5
    have hok : isInvalidAmount input.amount = false := isInvalidAmount_false h3 h4
    simp [TransactService.validate, h1, h2, hok, h5]

theorem validate_fixed_order_witness :
    TransactService.validate ⟨"key123", "user123", "100", some TransactionType.CREDIT⟩ = .ok ()
    ∧ TransactService.validate ⟨"key123", "", "100", some TransactionType.CREDIT⟩
        = .error (.UserNotFoundError "")
    ∧ TransactService.validate ⟨"", "user123", "100", some TransactionType.CREDIT⟩
        = .error .InvalidIdempotencyKeyError
    ∧ TransactService.validate ⟨"key123", "user123", "not-a-number", some TransactionType.CREDIT⟩
        = .error .InvalidAmountError
    ∧ TransactService.validate ⟨"key123", "user123", "100", none⟩
        = .error .InvalidTransactionTypeError :=
  ⟨(validate_fixed_order _).2.2.2.2 TransactionType.CREDIT (by decide) (by decide)
      (by decide) ⟨100, by decide, by decide⟩ rfl,
   (validate_fixed_order _).1 rfl,
   (validate_fixed_order _).2.1 (by decide) rfl,
   (validate_fixed_order _).2.2.1 (by decide) (by decide) (Or.inr (Or.inl (by decide))),
   (validate_fixed_order _).2.2.2.1 (by decide) (by decide) (by decide)
      ⟨100, by decide, by decide⟩ rfl⟩

/-- C9: `UserService.getUserBalance` fails with `InvalidUserIdError` on an
empty `userId`; fails with `UserNotFoundError` when the user item is
absent; returns the process-wide default amount paired with the default
currency when the item exists but has no `balance` attribute (read-only: it
is a function of the state that returns no new state, so no write happens);
and returns the stored balance paired with the default currency when the
item has a `balance` but no `currency`. -/
theorem getUserBalance_cases (s : DBState) (cfg : TConfig) (userId : String) :
    (userId = "" →
      UserService.getUserBalance s cfg userId = .error .InvalidUserIdError)
    ∧ (userId ≠ "" → UserService.getUserItem s userId = none →
      UserService.getUserBalance s cfg userId = .error (.UserNotFoundError userId))
    ∧ (∀ item, userId ≠ "" → UserService.getUserItem s userId = some item →
      item.balance = none →
      UserService.getUserBalance s cfg userId
        = .ok (cfg.DEFAULT_BALANCE, cfg.DEFAULT_CURRENCY))
    ∧ (∀ item b, userId ≠ "" → UserService.getUserItem s userId = some item →
      item.balance = some b → item.currency = none →
      UserService.getUserBalance s cfg userId = .ok (b, cfg.DEFAULT_CURRENCY)) := by
  refine ⟨?_, ?_, ?_, ?_⟩
  · intro h
    simp [UserService.getUserBalance, h]
  · intro h1 h2
    simp [UserService.getUserBalance, h1, h2]
  · intro item h1 h2 h3
    simp [UserService.getUserBalance, h1, h2, h3]
  · intro item b h1 h2 h3 h4
    simp [UserService.getUserBalance, h1, h2, h3, h4]

theorem getUserBalance_cases_witness :
    UserService.getUserBalance
        ⟨[("u", ⟨some 5, none⟩), ("w", ⟨none, some "EUR"⟩)], []⟩ ⟨100, "USD"⟩ ""
      = .error .InvalidUserIdError
    ∧ UserService.getUserBalance
        ⟨[("u", ⟨some 5, none⟩), ("w", ⟨none, some "EUR"⟩)], []⟩ ⟨100, "USD"⟩ "v"
      = .error (.UserNotFoundError "v")
    ∧ UserService.getUserBalance
        ⟨[("u", ⟨some 5, none⟩), ("w", ⟨none, some "EUR"⟩)], []⟩ ⟨100, "USD"⟩ "w"
      = .ok (100, "USD")
    ∧ UserService.getUserBalance
        ⟨[("u", ⟨some 5, none⟩), ("w", ⟨none, some "EUR"⟩)], []⟩ ⟨100, "USD"⟩ "u"
      = .ok (5, "USD") :=
  ⟨(getUserBalance_cases _ _ _).1 rfl,
   (getUserBalance_cases _ _ _).2.1 (by decide) (by decide),
   (getUserBalance_cases _ _ _).2.2.1 ⟨none, some "EUR"⟩ (by decide) (by decide) rfl,
   (getUserBalance_cases _ _ _).2.2.2 ⟨some 5, none⟩ 5 (by decide) (by decide) rfl rfl⟩

/-- C1: when the atomic write is rejected and the store reports the
balance-update guard (the first transact item) as the failed condition, a
DEBIT request fails with `InsufficientBalanceError`; and this
reinterpretation only happens for non-CREDIT requests — a CREDIT request
can never produce `InsufficientBalanceError`, whatever the store failure. -/
theorem debit_guard_becomes_insufficient_balance :
    (∀ (input : TransactionInput) (reasons : List CancellationReason)
        (message : String) (recheck : Option TransactionItem),
      input.type = some TransactionType.DEBIT →
      reasons.head?.map CancellationReason.Code
          = some CancellationCode.ConditionalCheckFailed →
      TransactService.handleWriteError input
          (.TransactionCanceledException reasons message) recheck
        = .error .InsufficientBalanceError)
    ∧ (∀ (input : TransactionInput) (e : DbError) (recheck : Option TransactionItem),
      input.type = some TransactionType.CREDIT →
      TransactService.handleWriteError input e recheck
        ≠ .error .InsufficientBalanceError) := by
  constructor
  · intro input reasons message recheck hdeb hfirst
    simp [TransactService.handleWriteError, hdeb, hfirst]
  · intro input e recheck hcred
    cases e with
    | TransactionCanceledException reasons message =>
        simp only [TransactService.handleWriteError, hcred]
        rw [if_neg (by simp)]
        split_ifs
        · cases recheck <;> simp
        · simp
    | OtherError message => simp [TransactService.handleWriteError]

theorem debit_guard_becomes_insufficient_balance_witness :
    TransactService.handleWriteError ⟨"k", "u", "10", some TransactionType.DEBIT⟩
        (.TransactionCanceledException
          [⟨CancellationCode.ConditionalCheckFailed, none⟩,
           ⟨CancellationCode.None, none⟩] "Transaction cancelled") none
      = .error .InsufficientBalanceError
    ∧ TransactService.handleWriteError ⟨"k", "u", "10", some TransactionType.CREDIT⟩
        (.TransactionCanceledException
          [⟨CancellationCode.ConditionalCheckFailed, none⟩,
           ⟨CancellationCode.None, none⟩] "Transaction cancelled") none
      ≠ .error .InsufficientBalanceError :=
  ⟨debit_guard_becomes_insufficient_balance.1 _ _ _ _ rfl rfl,
   debit_guard_becomes_insufficient_balance.2 _ _ _ rfl⟩

/-- C2: when the atomic write is rejected with a cancellation whose failed
condition reports a conflicting record carrying the request's idempotency
key — and the debit balance-guard branch does not apply first (the source's
`else`) — the code re-reads the ledger for that key: a found record makes
the call return normally, and against the store the whole `transact`
returns the state unmodified with the re-read being
`checkExistingTransaction` (no further write); an empty re-read fails with
the generic transaction-failure error preserving the store's rejection
message.  A store failure that is not a guard cancellation propagates
unchanged. -/
theorem idempotency_conflict_reread (input : TransactionInput)
    (reasons : List CancellationReason) (message : String)
    (hnotbal : ¬ (¬ (input.type = some TransactionType.CREDIT)
      ∧ reasons.head?.map CancellationReason.Code
          = some CancellationCode.ConditionalCheckFailed))
    (hconf : ∃ r ∈ reasons, r.Code = CancellationCode.ConditionalCheckFailed
      ∧ r.ItemIdempotencyKey = some input.idempotentKey) :
    (∀ rec, TransactService.handleWriteError input
        (.TransactionCanceledException reasons message) (some rec) = .ok ())
    ∧ TransactService.handleWriteError input
        (.TransactionCanceledException reasons message) none
        = .error (.TransactionFailedError ("Transaction failed: " ++ message))
    ∧ (∀ s now, dynamoTransactWrite s input now
          = .error (.TransactionCanceledException reasons message) →
        ∀ rec, TransactService.checkExistingTransaction s input.idempotentKey = some rec →
        TransactService.transact s input now = .ok s)
    ∧ (∀ (inp : TransactionInput) (m : String) (recheck : Option TransactionItem),
        TransactService.handleWriteError inp (.OtherError m) recheck
          = .error (.StoreError m)) := by
  refine ⟨?_, ?_, ?_, ?_⟩
  · intro rec
    simp only [TransactService.handleWriteError]
    rw [if_neg hnotbal, if_pos hconf]
  · simp only [TransactService.handleWriteError]
    rw [if_neg hnotbal, if_pos hconf]
  · intro s now hw rec hrec
    have h1 : TransactService.handleWriteError input
        (.TransactionCanceledException reasons message)
        (TransactService.checkExistingTransaction s input.idempotentKey) = .ok () := by
      rw [hrec]
      simp only [TransactService.handleWriteError]
      rw [if_neg hnotbal, if_pos hconf]
    simp [TransactService.transact, hw, h1]
  · intro inp m recheck
    simp [TransactService.handleWriteError]

theorem idempotency_conflict_reread_witness :
    TransactService.handleWriteError ⟨"k", "u", "10", some TransactionType.CREDIT⟩
        (.TransactionCanceledException
          [⟨CancellationCode.None, none⟩,
           ⟨CancellationCode.ConditionalCheckFailed, some "k"⟩] "Transaction cancelled")
        (some ⟨"k", "other", 99, some TransactionType.DEBIT, 1⟩) = .ok ()
    ∧ TransactService.handleWriteError ⟨"k", "u", "10", some TransactionType.CREDIT⟩
        (.TransactionCanceledException
          [⟨CancellationCode.None, none⟩,
           ⟨CancellationCode.ConditionalCheckFailed, some "k"⟩] "Transaction cancelled") none
        = .error (.TransactionFailedError ("Transaction failed: " ++ "Transaction cancelled"))
    ∧ TransactService.transact
        ⟨[("u", ⟨some 5, none⟩)],
         [("k", ⟨"k", "other", 99, some TransactionType.DEBIT, 1⟩)]⟩
        ⟨"k", "u", "10", some TransactionType.CREDIT⟩ 7
        = .ok ⟨[("u", ⟨some 5, none⟩)],
               [("k", ⟨"k", "other", 99, some TransactionType.DEBIT, 1⟩)]⟩
    ∧ TransactService.handleWriteError ⟨"k", "u", "10", some TransactionType.CREDIT⟩
        (.OtherError "boom") none = .error (.StoreError "boom") :=
  ⟨(idempotency_conflict_reread ⟨"k", "u", "10", some TransactionType.CREDIT⟩
      [⟨CancellationCode.None, none⟩, ⟨CancellationCode.ConditionalCheckFailed, some "k"⟩]
      "Transaction cancelled" (by decide) (by decide)).1 _,
   (idempotency_conflict_reread ⟨"k", "u", "10", some TransactionType.CREDIT⟩
      [⟨CancellationCode.None, none⟩, ⟨CancellationCode.ConditionalCheckFailed, some "k"⟩]
      "Transaction cancelled" (by decide) (by decide)).2.1,
   (idempotency_conflict_reread ⟨"k", "u", "10", some TransactionType.CREDIT⟩
      [⟨CancellationCode.None, none⟩, ⟨CancellationCode.ConditionalCheckFailed, some "k"⟩]
      "Transaction cancelled" (by decide) (by decide)).2.2.1 _ 7 (by decide)
      ⟨"k", "other", 99, some TransactionType.DEBIT, 1⟩ (by decide),
   (idempotency_conflict_reread ⟨"k", "u", "10", some TransactionType.CREDIT⟩
      [⟨CancellationCode.None, none⟩, ⟨CancellationCode.ConditionalCheckFailed, some "k"⟩]
      "Transaction cancelled" (by decide) (by decide)).2.2.2 _ "boom" none⟩

/-- C5: the orchestrated operation runs in fixed order: a validation
failure propagates as-is before any store interaction (the outcome is the
same for every store state); then the user lookup fails with
`UserNotFoundError` when the user item is absent, before any idempotency
read or write (the outcome is independent of the ledger); then the
idempotency pre-check returns success with no further action (the state is
returned untouched) when a ledger record for the key already exists; and
only otherwise does the call reach the atomic `TransactService.transact`. -/
theorem orchestrator_fixed_order (s : DBState) (input : TransactionInput) (now : Nat) :
    (∀ e, TransactService.validate input = .error e →
      createTransactFn s input now = .error e)
    ∧ (TransactService.validate input = .ok () → dbGet s.users input.userId = none →
      createTransactFn s input now = .error (.UserNotFoundError input.userId))
    ∧ (∀ u r, TransactService.validate input = .ok () →
      dbGet s.users input.userId = some u →
      TransactService.checkExistingTransaction s input.idempotentKey = some r →
      createTransactFn s input now = .ok s)
    ∧ (∀ u, TransactService.validate input = .ok () →
      dbGet s.users input.userId = some u →
      TransactService.checkExistingTransaction s input.idempotentKey = none →
      createTransactFn s input now = TransactService.transact s input now) := by
  refine ⟨?_, ?_, ?_, ?_⟩
  · intro e he
    simp [createTransactFn, he]
  · intro hv hu
    simp [createTransactFn, hv, hu]
  · intro u r hv hu hr
    simp [createTransactFn, hv, hu, hr]
  · intro u hv hu hr
    simp [createTransactFn, hv, hu, hr]

theorem orchestrator_fixed_order_witness :
    createTransactFn ⟨[("u", ⟨some 5, none⟩)], []⟩ ⟨"k", "u", "", some TransactionType.CREDIT⟩ 7
      = .error .InvalidAmountError
    ∧ createTransactFn ⟨[("u", ⟨some 5, none⟩)], []⟩ ⟨"k", "v", "10", some TransactionType.CREDIT⟩ 7
      = .error (.UserNotFoundError "v")
    ∧ createTransactFn
        ⟨[("u", ⟨some 5, none⟩)],
         [("k", ⟨"k", "u", 10, some TransactionType.CREDIT, 1⟩)]⟩
        ⟨"k", "u", "10", some TransactionType.CREDIT⟩ 7
      = .ok ⟨[("u", ⟨some 5, none⟩)],
             [("k", ⟨"k", "u", 10, some TransactionType.CREDIT, 1⟩)]⟩
    ∧ createTransactFn ⟨[("u", ⟨some 5, none⟩)], []⟩ ⟨"k", "u", "10", some TransactionType.CREDIT⟩ 7
      = TransactService.transact ⟨[("u", ⟨some 5, none⟩)], []⟩
          ⟨"k", "u", "10", some TransactionType.CREDIT⟩ 7 :=
  ⟨(orchestrator_fixed_order _ _ _).1 _ (by decide),
   (orchestrator_fixed_order _ _ _).2.1 (by decide) (by decide),
   (orchestrator_fixed_order _ _ _).2.2.1 ⟨some 5, none⟩
      ⟨"k", "u", 10, some TransactionType.CREDIT, 1⟩ (by decide) (by decide) (by decide),
   (orchestrator_fixed_order _ _ _).2.2.2 ⟨some 5, none⟩ (by decide) (by decide) (by decide)⟩

/-- C7: a DEBIT request against a user whose stored balance is smaller than
the requested amount fails with `InsufficientBalanceError`, and the
observable store state after the call is exactly the state before it — the
rejected atomic write mutates neither the balance nor the ledger. -/
theorem debit_insufficient_unchanged (s : DBState) (input : TransactionInput)
    (now : Nat) (q b : ℚ)
    (hdeb : input.type = some TransactionType.DEBIT)
    (hq : jsNumber input.amount = some q)
    (hb : userBalance s input.userId = some b)
    (hlt : b < q) :
    runTransact s input now = (s, some .InsufficientBalanceError) := by
  have hcred : ¬ input.type = some TransactionType.CREDIT := by
    rw [hdeb]; simp
  have hop1 : op1Guard s input q = false := by
    simp [op1Guard, hcred, debitGuard, hb, not_le.mpr hlt]
  have hw : dynamoTransactWrite s input now
      = .error (.TransactionCanceledException (cancelReasons s input q)
          "Transaction cancelled") := by
    simp [dynamoTransactWrite, hq, hop1]
  have hhead : (cancelReasons s input q).head?.map CancellationReason.Code
      = some CancellationCode.ConditionalCheckFailed := by
    simp [cancelReasons, hop1]
  have hh : TransactService.handleWriteError input
      (.TransactionCanceledException (cancelReasons s input q) "Transaction cancelled")
      (TransactService.checkExistingTransaction s input.idempotentKey)
      = .error .InsufficientBalanceError := by
    simp only [TransactService.handleWriteError]
    rw [if_pos ⟨hcred, hhead⟩]
  simp [runTransact, TransactService.transact, hw, hh]

theorem debit_insufficient_unchanged_witness :
    runTransact ⟨[("u", ⟨some 5, none⟩)], []⟩
        ⟨"k", "u", "10", some TransactionType.DEBIT⟩ 7
      = (⟨[("u", ⟨some 5, none⟩)], []⟩, some .InsufficientBalanceError) :=
  debit_insufficient_unchanged _ _ 7 10 5 rfl (by decide) (by decide) (by decide)

/-! ### Success-path lemmas for the atomic write -/

theorem dynamoTransactWrite_ok (s : DBState) (input : TransactionInput) (now : Nat) (q : ℚ)
    (hq : jsNumber input.amount = some q)
    (hop1 : op1Guard s input q = true) (hop2 : op2Guard s input = true) :
    dynamoTransactWrite s input now = .ok (writeSuccessState s input q now) := by
  simp [dynamoTransactWrite, hq, hop1, hop2]

theorem transact_ok_of_guards (s : DBState) (input : TransactionInput) (now : Nat) (q : ℚ)
    (hq : jsNumber input.amount = some q)
    (hop1 : op1Guard s input q = true) (hop2 : op2Guard s input = true) :
    TransactService.transact s input now = .ok (writeSuccessState s input q now) := by
  simp [TransactService.transact, dynamoTransactWrite_ok s input now q hq hop1 hop2]

theorem writeSuccessState_balance (s : DBState) (input : TransactionInput) (q : ℚ) (now : Nat) :
    userBalance (writeSuccessState s input q now) input.userId
      = some (if input.type = some TransactionType.CREDIT
          then (userBalance s input.userId).getD 0 + q
          else (userBalance s input.userId).getD 0 - q) := by
  simp [writeSuccessState, userBalance, dbGet_updList]

theorem writeSuccessState_ledger (s : DBState) (input : TransactionInput) (q : ℚ) (now : Nat) :
    dbGet (writeSuccessState s input q now).transactions input.idempotentKey
      = some ⟨input.idempotentKey, input.userId, q, input.type, now⟩ := by
  simp [writeSuccessState, dbGet_updList]

theorem writeSuccessState_users_frame (s : DBState) (input : TransactionInput) (q : ℚ)
    (now : Nat) (uid : String) (h : uid ≠ input.userId) :
    dbGet (writeSuccessState s input q now).users uid = dbGet s.users uid := by
  simp [writeSuccessState, dbGet_updList, h]

theorem writeSuccessState_tx_frame (s : DBState) (input : TransactionInput) (q : ℚ)
    (now : Nat) (k : String) (h : k ≠ input.idempotentKey) :
    dbGet (writeSuccessState s input q now).transactions k = dbGet s.transactions k := by
  simp [writeSuccessState, dbGet_updList, h]

theorem op1_false_of_debit (s : DBState) (input : TransactionInput) (q : ℚ)
    (hdeb : input.type = some TransactionType.DEBIT)
    (hbal : userBalance s input.userId = none
      ∨ ∃ b, userBalance s input.userId = some b ∧ b < q) :
    op1Guard s input q = false := by
  have hcred : ¬ input.type = some TransactionType.CREDIT := by
    rw [hdeb]; simp
  rcases hbal with h | ⟨b, hb, hlt⟩
  · simp [op1Guard, hcred, debitGuard, h]
  · simp [op1Guard, hcred, debitGuard, hb, not_le.mpr hlt]

theorem transact_insufficient_of_op1_false (s : DBState) (input : TransactionInput)
    (now : Nat) (q : ℚ) (hq : jsNumber input.amount = some q)
    (hcred : ¬ input.type = some TransactionType.CREDIT)
    (hop1 : op1Guard s input q = false) :
    TransactService.transact s input now = .error .InsufficientBalanceError := by
  have hw : dynamoTransactWrite s input now
      = .error (.TransactionCanceledException (cancelReasons s input q)
          "Transaction cancelled") := by
    simp [dynamoTransactWrite, hq, hop1]
  have hhead : (cancelReasons s input q).head?.map CancellationReason.Code
      = some CancellationCode.ConditionalCheckFailed := by
    simp [cancelReasons, hop1]
  have hh : TransactService.handleWriteError input
      (.TransactionCanceledException (cancelReasons s input q) "Transaction cancelled")
      (TransactService.checkExistingTransaction s input.idempotentKey)
      = .error .InsufficientBalanceError := by
    simp only [TransactService.handleWriteError]
    rw [if_pos ⟨hcred, hhead⟩]
  simp [TransactService.transact, hw, hh]

/-- C3: the transactor issues one atomic write of exactly two operations,
characterized here by its effect.  CREDIT: with the ledger free of the key
the write commits unconditionally — the user's balance becomes
`(balance if present else 0) + amount` and a ledger record keyed by
`idempotentKey` carrying `userId`, `amount`, `type` and the
transactor-assigned `timestamp` appears, every other user row and ledger
key untouched.  DEBIT: the balance update is guarded by the `balance`
attribute existing and being `≥ amount` — when the guard holds the balance
becomes `balance - amount` with the same ledger insert, and when it fails
(balance absent or smaller) the whole write is rejected and the call fails
with `InsufficientBalanceError`.  Ledger guard: with a record already
stored under the key, the write is cancelled reporting the second (insert)
operation as the failed condition together with the stored record's key. -/
theorem transact_two_operation_write (s : DBState) (input : TransactionInput)
    (now : Nat) (q : ℚ) (hq : jsNumber input.amount = some q) :
    (input.type = some TransactionType.CREDIT →
      dbGet s.transactions input.idempotentKey = none →
      ∃ s', TransactService.transact s input now = .ok s'
        ∧ userBalance s' input.userId = some ((userBalance s input.userId).getD 0 + q)
        ∧ dbGet s'.transactions input.idempotentKey
            = some ⟨input.idempotentKey, input.userId, q, input.type, now⟩
        ∧ (∀ uid, uid ≠ input.userId → dbGet s'.users uid = dbGet s.users uid)
        ∧ (∀ k, k ≠ input.idempotentKey →
            dbGet s'.transactions k = dbGet s.transactions k))
    ∧ (∀ b, input.type = some TransactionType.DEBIT →
      dbGet s.transactions input.idempotentKey = none →
      userBalance s input.userId = some b → q ≤ b →
      ∃ s', TransactService.transact s input now = .ok s'
        ∧ userBalance s' input.userId = some (b - q)
        ∧ dbGet s'.transactions input.idempotentKey
            = some ⟨input.idempotentKey, input.userId, q, input.type, now⟩
        ∧ (∀ uid, uid ≠ input.userId → dbGet s'.users uid = dbGet s.users uid)
        ∧ (∀ k, k ≠ input.idempotentKey →
            dbGet s'.transactions k = dbGet s.transactions k))
    ∧ (input.type = some TransactionType.DEBIT →
      (userBalance s input.userId = none
        ∨ ∃ b, userBalance s input.userId = some b ∧ b < q) →
      TransactService.transact s input now = .error .InsufficientBalanceError)
    ∧ (∀ r, dbGet s.transactions input.idempotentKey = some r →
      dynamoTransactWrite s input now = .error (.TransactionCanceledException
        [⟨if op1Guard s input q then CancellationCode.None
            else CancellationCode.ConditionalCheckFailed, none⟩,
         ⟨CancellationCode.ConditionalCheckFailed, some r.idempotencyKey⟩]
        "Transaction cancelled")) := by
  refine ⟨?_, ?_, ?_, ?_⟩
  · intro hcred hfresh
    have hop1 : op1Guard s input q = true := by simp [op1Guard, hcred]
    have hop2 : op2Guard s input = true := by simp [op2Guard, hfresh]
    refine ⟨writeSuccessState s input q now,
      transact_ok_of_guards s input now q hq hop1 hop2, ?_,
      writeSuccessState_ledger s input q now,
      fun uid h => writeSuccessState_users_frame s input q now uid h,
      fun k h => writeSuccessState_tx_frame s input q now k h⟩
    rw [writeSuccessState_balance]
    simp [hcred]
  · intro b hdeb hfresh hb hge
    have hcred : ¬ input.type = some TransactionType.CREDIT := by
      rw [hdeb]; simp
    have hop1 : op1Guard s input q = true := by
      simp [op1Guard, hcred, debitGuard, hb, hge]
    have hop2 : op2Guard s input = true := by simp [op2Guard, hfresh]
    refine ⟨writeSuccessState s input q now,
      transact_ok_of_guards s input now q hq hop1 hop2, ?_,
      writeSuccessState_ledger s input q now,
      fun uid h => writeSuccessState_users_frame s input q now uid h,
      fun k h => writeSuccessState_tx_frame s input q now k h⟩
    rw [writeSuccessState_balance]
    simp [hcred, hb]
  · intro hdeb hbal
    have hcred : ¬ input.type = some TransactionType.CREDIT := by
      rw [hdeb]; simp
    exact transact_insufficient_of_op1_false s input now q hq hcred
      (op1_false_of_debit s input q hdeb hbal)
  · intro r hr
    have hop2 : op2Guard s input = false := by simp [op2Guard, hr]
    simp [dynamoTransactWrite, hq, hop2, cancelReasons, hr]

theorem transact_two_operation_write_witness :
    (∃ s', TransactService.transact ⟨[("u", ⟨some 5, none⟩)], []⟩
        ⟨"k", "u", "10", some TransactionType.CREDIT⟩ 7 = .ok s'
      ∧ userBalance s' "u" = some 15
      ∧ dbGet s'.transactions "k"
          = some ⟨"k", "u", 10, some TransactionType.CREDIT, 7⟩)
    ∧ (∃ s', TransactService.transact ⟨[("u", ⟨some 5, none⟩)], []⟩
        ⟨"k", "u", "3", some TransactionType.DEBIT⟩ 7 = .ok s'
      ∧ userBalance s' "u" = some 2)
    ∧ TransactService.transact ⟨[("u", ⟨some 5, none⟩)], []⟩
        ⟨"k", "u", "10", some TransactionType.DEBIT⟩ 7
      = .error .InsufficientBalanceError
    ∧ dynamoTransactWrite
        ⟨[("u", ⟨some 5, none⟩)],
         [("k", ⟨"k", "other", 99, some TransactionType.DEBIT, 1⟩)]⟩
        ⟨"k", "u", "10", some TransactionType.CREDIT⟩ 7
      = .error (.TransactionCanceledException
          [⟨CancellationCode.None, none⟩,
           ⟨CancellationCode.ConditionalCheckFailed, some "k"⟩]
          "Transaction cancelled") := by
  refine ⟨?_, ?_, ?_, ?_⟩
  · obtain ⟨s', h1, h2, h3, -, -⟩ :=
      (transact_two_operation_write ⟨[("u", ⟨some 5, none⟩)], []⟩
        ⟨"k", "u", "10", some TransactionType.CREDIT⟩ 7 10 (by decide)).1 rfl rfl
    refine ⟨s', h1, ?_, h3⟩
    rw [h2, show (userBalance ⟨[("u", ⟨some 5, none⟩)], []⟩ "u").getD 0 = 5 from by decide,
        show (5 : ℚ) + 10 = 15 from by rw [← qAdd_eq]; decide]
  · obtain ⟨s', h1, h2, -, -, -⟩ :=
      (transact_two_operation_write ⟨[("u", ⟨some 5, none⟩)], []⟩
        ⟨"k", "u", "3", some TransactionType.DEBIT⟩ 7 3 (by decide)).2.1
        5 rfl rfl (by decide) (by decide)
    refine ⟨s', h1, ?_⟩
    rw [h2, show (5 : ℚ) - 3 = 2 from by rw [← qSub_eq]; decide]
  · exact (transact_two_operation_write ⟨[("u", ⟨some 5, none⟩)], []⟩
      ⟨"k", "u", "10", some TransactionType.DEBIT⟩ 7 10 (by decide)).2.2.1 rfl
      (Or.inr ⟨5, by decide, by decide⟩)
  · have h := (transact_two_operation_write
      ⟨[("u", ⟨some 5, none⟩)],
       [("k", ⟨"k", "other", 99, some TransactionType.DEBIT, 1⟩)]⟩
      ⟨"k", "u", "10", some TransactionType.CREDIT⟩ 7 10 (by decide)).2.2.2
      ⟨"k", "other", 99, some TransactionType.DEBIT, 1⟩ (by decide)
    simpa using h

theorem handleWriteError_none_ne_ok (input : TransactionInput)
    (reasons : List CancellationReason) (message : String) :
    TransactService.handleWriteError input
      (.TransactionCanceledException reasons message) none ≠ .ok () := by
  simp only [TransactService.handleWriteError]
  split_ifs <;> simp

theorem transact_ok_cases (s : DBState) (input : TransactionInput) (now : Nat) (q : ℚ)
    (hq : jsNumber input.amount = some q) {s' : DBState}
    (h : TransactService.transact s input now = .ok s') :
    (op1Guard s input q = true ∧ op2Guard s input = true
      ∧ s' = writeSuccessState s input q now) ∨ s' = s := by
  by_cases hg : (op1Guard s input q && op2Guard s input) = true
  · rcases Bool.and_eq_true_iff.mp hg with ⟨h1, h2⟩
    left
    refine ⟨h1, h2, ?_⟩
    have hw := dynamoTransactWrite_ok s input now q hq h1 h2
    simp [TransactService.transact, hw] at h
    exact h.symm
  · right
    have hw : dynamoTransactWrite s input now
        = .error (.TransactionCanceledException (cancelReasons s input q)
            "Transaction cancelled") := by
      simp only [dynamoTransactWrite, hq]
      rw [if_neg hg]
    simp only [TransactService.transact, hw] at h
    cases hh : TransactService.handleWriteError input
        (.TransactionCanceledException (cancelReasons s input q) "Transaction cancelled")
        (TransactService.checkExistingTransaction s input.idempotentKey) with
    | ok z => cases z; simp [hh] at h; exact h.symm
    | error e => simp [hh] at h

theorem createTransactFn_ok_cases {s : DBState} {input : TransactionInput} {now : Nat}
    {s' : DBState} (h : createTransactFn s input now = .ok s') :
    s' = s ∨ TransactService.transact s input now = .ok s' := by
  unfold createTransactFn at h
  cases hv : TransactService.validate input with
  | error e => simp [hv] at h
  | ok z =>
      cases z
      rw [hv] at h
      cases hu : dbGet s.users input.userId with
      | none => rw [hu] at h; simp at h
      | some u =>
          rw [hu] at h
          cases hx : TransactService.checkExistingTransaction s input.idempotentKey with
          | some r => rw [hx] at h; simp at h; exact Or.inl h.symm
          | none => rw [hx] at h; exact Or.inr h

/-- C4: with a valid request and an idempotency key not yet in the ledger,
a successful orchestrated call leaves exactly one ledger record under the
key, and invoking the orchestrated operation a second time with the same
input returns success with the state bit-for-bit unchanged: no second
ledger record and no second balance mutation. -/
theorem transact_idempotent (s : DBState) (input : TransactionInput)
    (now now' : Nat) (s₁ : DBState)
    (hval : TransactService.validate input = .ok ())
    (hfresh : dbGet s.transactions input.idempotentKey = none)
    (h1 : createTransactFn s input now = .ok s₁) :
    keyCount s₁.transactions input.idempotentKey = 1
    ∧ createTransactFn s₁ input now' = .ok s₁ := by
  obtain ⟨-, -, -, hnn, -⟩ := validate_ok_facts hval
  cases hqe : jsNumber input.amount with
  | none => exact absurd hqe hnn
  | some q =>
  cases hu : dbGet s.users input.userId with
  | none => simp [createTransactFn, hval, hu] at h1
  | some u =>
  have htr : TransactService.transact s input now = .ok s₁ := by
    simpa [createTransactFn, hval, hu, TransactService.checkExistingTransaction,
      hfresh] using h1
  by_cases hg : (op1Guard s input q && op2Guard s input) = true
  · rcases Bool.and_eq_true_iff.mp hg with ⟨hop1, hop2⟩
    have hw := dynamoTransactWrite_ok s input now q hqe hop1 hop2
    simp only [TransactService.transact, hw] at htr
    obtain rfl : writeSuccessState s input q now = s₁ := by
      simpa using htr
    constructor
    · exact keyCount_updList_of_none _ hfresh
    · have hu1 : dbGet (writeSuccessState s input q now).users input.userId
          = some { (dbGet s.users input.userId).getD
                     { balance := none, currency := none } with
                   balance := some (if input.type = some TransactionType.CREDIT
                     then qAdd ((userBalance s input.userId).getD 0) q
                     else qSub ((userBalance s input.userId).getD 0) q) } := by
        simp [writeSuccessState, dbGet_updList]
      have hx1 : TransactService.checkExistingTransaction
          (writeSuccessState s input q now) input.idempotentKey
          = some ⟨input.idempotentKey, input.userId, q, input.type, now⟩ := by
        simpa [TransactService.checkExistingTransaction] using
          writeSuccessState_ledger s input q now
      simp [createTransactFn, hval, hu1, hx1]
  · -- a fresh key cannot end in the conflict no-op: the guard-failure path
    -- rechecks an empty ledger and always errors
    exfalso
    have hw : dynamoTransactWrite s input now
        = .error (.TransactionCanceledException (cancelReasons s input q)
            "Transaction cancelled") := by
      simp only [dynamoTransactWrite, hqe]
      rw [if_neg hg]
    simp only [TransactService.transact, hw] at htr
    rw [show TransactService.checkExistingTransaction s input.idempotentKey
        = none from hfresh] at htr
    cases hh : TransactService.handleWriteError input
        (.TransactionCanceledException (cancelReasons s input q) "Transaction cancelled")
        none with
    | ok z =>
        cases z
        exact handleWriteError_none_ne_ok input _ _ hh
    | error e => simp [hh] at htr

theorem transact_idempotent_witness :
    keyCount ([("k", ⟨"k", "u", 10, some TransactionType.CREDIT, 5⟩)]
        : List (String × TransactionItem)) "k" = 1
    ∧ createTransactFn
        ⟨[("u", ⟨some 15, none⟩)], [("k", ⟨"k", "u", 10, some TransactionType.CREDIT, 5⟩)]⟩
        ⟨"k", "u", "10", some TransactionType.CREDIT⟩ 9
      = .ok ⟨[("u", ⟨some 15, none⟩)],
             [("k", ⟨"k", "u", 10, some TransactionType.CREDIT, 5⟩)]⟩ :=
  transact_idempotent ⟨[("u", ⟨some 5, none⟩)], []⟩
    ⟨"k", "u", "10", some TransactionType.CREDIT⟩ 5 9
    ⟨[("u", ⟨some 15, none⟩)], [("k", ⟨"k", "u", 10, some TransactionType.CREDIT, 5⟩)]⟩
    (by decide) (by decide) (by decide)

theorem userBalance_nonneg {s : DBState} (hs : nonNegBalances s) (uid : String) :
    0 ≤ (userBalance s uid).getD 0 := by
  unfold userBalance
  cases hu : dbGet s.users uid with
  | none => simp
  | some item =>
      have h := hs (uid, item) (dbGet_mem hu)
      unfold UserItem.nonNeg at h
      simpa using h

theorem nonNeg_writeSuccessState (s : DBState) (input : TransactionInput) (q : ℚ)
    (now : Nat) (hs : nonNegBalances s) (hop1 : op1Guard s input q = true)
    (hpos : 0 < q) : nonNegBalances (writeSuccessState s input q now) := by
  intro p hp
  rcases mem_updList hp with rfl | hmem
  · unfold UserItem.nonNeg
    by_cases hcred : input.type = some TransactionType.CREDIT
    · simp [hcred]
      exact add_nonneg (userBalance_nonneg hs input.userId) (le_of_lt hpos)
    · have hgd : debitGuard s input.userId q = true := by
        simpa [op1Guard, hcred] using hop1
      obtain ⟨b, hb, hge⟩ : ∃ b, userBalance s input.userId = some b ∧ q ≤ b := by
        unfold debitGuard at hgd
        cases hub : userBalance s input.userId with
        | none => rw [hub] at hgd; cases hgd
        | some b =>
            rw [hub] at hgd
            exact ⟨b, rfl, by simpa using hgd⟩
      simp [hcred, hb]
      linarith
  · exact hs p hmem

/-- C8: starting from a state in which every present stored balance is
nonnegative, a request that passed validation (so its amount is a positive
number) leaves every present stored balance nonnegative after the core
transact as well as after the orchestrated call, whether the call succeeds
or fails: a failed write changes nothing, a credit adds a positive amount
to a nonnegative (or absent) balance, and a debit is guarded by
`balance ≥ amount`. -/
theorem balances_stay_nonneg (s : DBState) (input : TransactionInput) (now : Nat)
    (hs : nonNegBalances s) (hval : TransactService.validate input = .ok ()) :
    nonNegBalances (runTransact s input now).1
    ∧ nonNegBalances (runTransactFn s input now).1 := by
  obtain ⟨-, -, hpos, hnn, -⟩ := validate_ok_facts hval
  cases hqe : jsNumber input.amount with
  | none => exact absurd hqe hnn
  | some q =>
  have hq : 0 < q := hpos q hqe
  have hok : ∀ s', TransactService.transact s input now = .ok s' → nonNegBalances s' := by
    intro s' h
    rcases transact_ok_cases s input now q hqe h with ⟨hop1, -, rfl⟩ | rfl
    · exact nonNeg_writeSuccessState s input q now hs hop1 hq
    · exact hs
  constructor
  · unfold runTransact
    cases ht : TransactService.transact s input now with
    | ok s' => simpa using hok s' ht
    | error e => simpa using hs
  · unfold runTransactFn
    cases hc : createTransactFn s input now with
    | ok s' =>
        rcases createTransactFn_ok_cases hc with rfl | htr
        · simpa using hs
        · simpa using hok s' htr
    | error e => simpa using hs

theorem balances_stay_nonneg_witness :
    nonNegBalances (runTransact ⟨[("u", ⟨some 5, none⟩)], []⟩
      ⟨"k", "u", "3", some TransactionType.DEBIT⟩ 7).1
    ∧ nonNegBalances (runTransactFn ⟨[("u", ⟨some 5, none⟩)], []⟩
      ⟨"k", "u", "3", some TransactionType.DEBIT⟩ 7).1 :=
  balances_stay_nonneg ⟨[("u", ⟨some 5, none⟩)], []⟩
    ⟨"k", "u", "3", some TransactionType.DEBIT⟩ 7 (by decide) (by decide)

/-- C10: a second call that reuses an idempotency key succeeds as a no-op
even when its `userId`, `amount` or `type` differ from the stored ledger
record: the pre-check fast path returns the state untouched for an
arbitrary stored record `r` with no hypothesis relating `r`'s fields to
the request, and the post-conflict re-read accepts an arbitrary found
record `rec` the same way — neither path compares any field but the key,
and no error is raised. -/
theorem replay_ignores_fields (s : DBState) (input : TransactionInput) (now : Nat)
    (r : TransactionItem) (u : UserItem)
    (hval : TransactService.validate input = .ok ())
    (hu : dbGet s.users input.userId = some u)
    (hr : TransactService.checkExistingTransaction s input.idempotentKey = some r) :
    createTransactFn s input now = .ok s
    ∧ (∀ (inp : TransactionInput) (reasons : List CancellationReason)
        (message : String) (rec : TransactionItem),
      ¬ (¬ (inp.type = some TransactionType.CREDIT)
        ∧ reasons.head?.map CancellationReason.Code
            = some CancellationCode.ConditionalCheckFailed) →
      (∃ cr ∈ reasons, cr.Code = CancellationCode.ConditionalCheckFailed
        ∧ cr.ItemIdempotencyKey = some inp.idempotentKey) →
      TransactService.handleWriteError inp
        (.TransactionCanceledException reasons message) (some rec) = .ok ()) := by
  constructor
  · simp [createTransactFn, hval, hu, hr]
  · intro inp reasons message rec hnb hc
    simp only [TransactService.handleWriteError]
    rw [if_neg hnb, if_pos hc]

theorem replay_ignores_fields_witness :
    createTransactFn
        ⟨[("u", ⟨some 5, none⟩)],
         [("k", ⟨"k", "other", 99, some TransactionType.DEBIT, 1⟩)]⟩
        ⟨"k", "u", "10", some TransactionType.CREDIT⟩ 7
      = .ok ⟨[("u", ⟨some 5, none⟩)],
             [("k", ⟨"k", "other", 99, some TransactionType.DEBIT, 1⟩)]⟩
    ∧ TransactService.handleWriteError ⟨"k2", "u", "10", some TransactionType.CREDIT⟩
        (.TransactionCanceledException
          [⟨CancellationCode.None, none⟩,
           ⟨CancellationCode.ConditionalCheckFailed, some "k2"⟩] "Transaction cancelled")
        (some ⟨"k2", "someone-else", 1, none, 0⟩) = .ok () :=
  ⟨(replay_ignores_fields
      ⟨[("u", ⟨some 5, none⟩)],
       [("k", ⟨"k", "other", 99, some TransactionType.DEBIT, 1⟩)]⟩
      ⟨"k", "u", "10", some TransactionType.CREDIT⟩ 7
      ⟨"k", "other", 99, some TransactionType.DEBIT, 1⟩ ⟨some 5, none⟩
      (by decide) (by decide) (by decide)).1,
   (replay_ignores_fields
      ⟨[("u", ⟨some 5, none⟩)],
       [("k", ⟨"k", "other", 99, some TransactionType.DEBIT, 1⟩)]⟩
      ⟨"k", "u", "10", some TransactionType.CREDIT⟩ 7
      ⟨"k", "other", 99, some TransactionType.DEBIT, 1⟩ ⟨some 5, none⟩
      (by decide) (by decide) (by decide)).2 _ _ "Transaction cancelled" _
      (by decide) (by decide)⟩
